import Mathlib

/-!
Verification of the PK / drug-interaction / adverse-event simulation core of the
multi-agent clinical-trial simulator.

The Python source is shallowly embedded: floats become exact rationals (ℚ),
dictionaries become structures or association lists, the string-keyed patient
dictionary becomes a flat `Patient` structure whose fields correspond to the
dictionary paths read by the agents (`patient["age"]`,
`patient["genomic_profile"]["cyp2d6_status"]`, `patient["vital_signs"]["bmi"]`,
`patient["medical_history"]["conditions"]`, ...), and code that can raise a
Python exception (division by zero, enum decode failure) returns `Option`.
-/

namespace ClinSim

/-- Severity levels for drug-drug interactions (`InteractionSeverity` in
`drug_interaction_agent.py`). -/
inductive InteractionSeverity where
  | NONE
  | MINOR
  | MODERATE
  | MAJOR
  | CONTRAINDICATED
deriving DecidableEq, Repr

/-- Major drug metabolism pathways (`MetabolismPathway`). -/
inductive MetabolismPathway where
  | CYP1A2
  | CYP2C9
  | CYP2C19
  | CYP2D6
  | CYP3A4
  | UGT
  | RENAL
deriving DecidableEq, Repr

/-- Pharmacological properties of a drug (`DrugProperties`). -/
structure DrugProperties where
  name : String
  generic_name : String
  drug_class : String
  half_life_hours : ℚ
  bioavailability : ℚ
  volume_of_distribution : ℚ
  protein_binding : ℚ
  primary_metabolism : List MetabolismPathway
  active_metabolites : List String := []
  therapeutic_range : ℚ × ℚ := (0, 0)
deriving DecidableEq, Repr

/-- Pharmacokinetic parameters for a patient-drug combination (`PKParameters`). -/
structure PKParameters where
  cmax : ℚ
  tmax : ℚ
  auc : ℚ
  clearance : ℚ
  half_life : ℚ
  steady_state_concentration : ℚ
deriving DecidableEq, Repr

/-- An interaction between two drugs (`DrugInteraction`). -/
structure DrugInteraction where
  drug_a : String
  drug_b : String
  severity : InteractionSeverity
  mechanism : String
  clinical_effect : String
  recommendation : String
  evidence_level : String
deriving DecidableEq, Repr

/-- The patient profile dictionary, flattened: each field is one dictionary
path read by the agents. Defaults used by `.get` calls in the source are
supplied by the caller explicitly. -/
structure Patient where
  patient_id : String
  age : ℚ
  cyp2d6_status : String
  cyp3a4_activity : String
  bmi : ℚ
  conditions : List String
  previous_adverse_events : List String
deriving DecidableEq, Repr

/-- `metformin` entry of `DrugInteractionAgent._load_default_drugs`. -/
def metformin : DrugProperties :=
  { name := "Metformin"
    generic_name := "metformin"
    drug_class := "Biguanide"
    half_life_hours := 31/5
    bioavailability := 11/20
    volume_of_distribution := 654
    protein_binding := 0
    primary_metabolism := [MetabolismPathway.RENAL]
    therapeutic_range := (1000, 2000) }

/-- `atorvastatin` entry of `DrugInteractionAgent._load_default_drugs`. -/
def atorvastatin : DrugProperties :=
  { name := "Atorvastatin"
    generic_name := "atorvastatin"
    drug_class := "Statin"
    half_life_hours := 14
    bioavailability := 7/50
    volume_of_distribution := 381
    protein_binding := 49/50
    primary_metabolism := [MetabolismPathway.CYP3A4]
    therapeutic_range := (5, 80) }

/-- `lisinopril` entry of `DrugInteractionAgent._load_default_drugs`. -/
def lisinopril : DrugProperties :=
  { name := "Lisinopril"
    generic_name := "lisinopril"
    drug_class := "ACE Inhibitor"
    half_life_hours := 12
    bioavailability := 1/4
    volume_of_distribution := 124
    protein_binding := 0
    primary_metabolism := [MetabolismPathway.RENAL]
    therapeutic_range := (10, 40) }

/-- `DrugInteractionAgent._calculate_adjustment_factor`: sequential
multiplicative covariate adjustment (CYP2D6, CYP3A4, age, BMI), translated
rule for rule in source order. -/
def adjustmentFactor (patient : Patient) (drug : DrugProperties) : ℚ :=
  let factor : ℚ := 1
  let factor :=
    if MetabolismPathway.CYP2D6 ∈ drug.primary_metabolism then
      if patient.cyp2d6_status = "Poor" then factor * (1/2)
      else if patient.cyp2d6_status = "Ultra-rapid" then factor * 2
      else factor
    else factor
  let factor :=
    if MetabolismPathway.CYP3A4 ∈ drug.primary_metabolism then
      if patient.cyp3a4_activity = "Low" then factor * (7/10)
      else if patient.cyp3a4_activity = "High" then factor * (3/2)
      else factor
    else factor
  let factor :=
    if 65 < patient.age then factor * (4/5)
    else if patient.age < 18 then factor * (9/10)
    else factor
  let factor :=
    if 30 < patient.bmi then factor * (11/10)
    else factor
  factor

/-- The CYP2D6 term of the adjustment factor, in isolation. -/
def cyp2d6Term (patient : Patient) (drug : DrugProperties) : ℚ :=
  if MetabolismPathway.CYP2D6 ∈ drug.primary_metabolism then
    if patient.cyp2d6_status = "Poor" then 1/2
    else if patient.cyp2d6_status = "Ultra-rapid" then 2
    else 1
  else 1

/-- The CYP3A4 term of the adjustment factor, in isolation. -/
def cyp3a4Term (patient : Patient) (drug : DrugProperties) : ℚ :=
  if MetabolismPathway.CYP3A4 ∈ drug.primary_metabolism then
    if patient.cyp3a4_activity = "Low" then 7/10
    else if patient.cyp3a4_activity = "High" then 3/2
    else 1
  else 1

/-- The age term of the adjustment factor, in isolation. -/
def ageTerm (patient : Patient) : ℚ :=
  if 65 < patient.age then 4/5
  else if patient.age < 18 then 9/10
  else 1

/-- The BMI term of the adjustment factor, in isolation. -/
def bmiTerm (patient : Patient) : ℚ :=
  if 30 < patient.bmi then 11/10 else 1

lemma adjustmentFactor_eq_prod (patient : Patient) (drug : DrugProperties) :
    adjustmentFactor patient drug =
      cyp2d6Term patient drug * cyp3a4Term patient drug * ageTerm patient * bmiTerm patient := by
  unfold adjustmentFactor cyp2d6Term cyp3a4Term ageTerm bmiTerm
  split_ifs <;> ring

lemma cyp2d6Term_pos (patient : Patient) (drug : DrugProperties) :
    0 < cyp2d6Term patient drug := by
  unfold cyp2d6Term; split_ifs <;> norm_num

lemma cyp3a4Term_pos (patient : Patient) (drug : DrugProperties) :
    0 < cyp3a4Term patient drug := by
  unfold cyp3a4Term; split_ifs <;> norm_num

lemma ageTerm_pos (patient : Patient) : 0 < ageTerm patient := by
  unfold ageTerm; split_ifs <;> norm_num

lemma bmiTerm_pos (patient : Patient) : 0 < bmiTerm patient := by
  unfold bmiTerm; split_ifs <;> norm_num

lemma adjustmentFactor_pos (patient : Patient) (drug : DrugProperties) :
    0 < adjustmentFactor patient drug := by
  rw [adjustmentFactor_eq_prod]
  exact mul_pos (mul_pos (mul_pos (cyp2d6Term_pos patient drug)
    (cyp3a4Term_pos patient drug)) (ageTerm_pos patient)) (bmiTerm_pos patient)

/-- Replace the age of a patient, all other fields unchanged. -/
def withAge (patient : Patient) (a : ℚ) : Patient := { patient with age := a }

/-- `DrugInteractionAgent.simulate_pk`, after the catalog lookup has produced a
`DrugProperties` record. Each Python division that can raise
`ZeroDivisionError` is guarded by an explicit zero test returning `none`;
guards appear in the order the divisions are evaluated in the source
(`ke`, `adjusted_cl`, `cmax`, `auc`, `css`, returned `half_life`). -/
def simulatePK (patient : Patient) (drug : DrugProperties)
    (dose_mg : ℚ) (frequency_hours : ℚ) : Option PKParameters :=
  let adjustment_factor := adjustmentFactor patient drug
  if drug.half_life_hours = 0 then none
  else if drug.half_life_hours * adjustment_factor = 0 then none
  else
    let adjusted_cl := dose_mg * drug.bioavailability /
      (drug.half_life_hours * adjustment_factor)
    if drug.volume_of_distribution = 0 then none
    else if adjusted_cl = 0 then none
    else if adjusted_cl * frequency_hours = 0 then none
    else if adjustment_factor = 0 then none
    else some
      { cmax := dose_mg * drug.bioavailability / drug.volume_of_distribution *
          adjustment_factor
        tmax := 3/2
        auc := dose_mg * drug.bioavailability / adjusted_cl
        clearance := adjusted_cl
        half_life := drug.half_life_hours / adjustment_factor
        steady_state_concentration := dose_mg * drug.bioavailability /
          (adjusted_cl * frequency_hours) }

/-- Under the validity preconditions every guard in `simulatePK` is false and
the returned record is the one written in the source. -/
lemma simulatePK_eq_some (patient : Patient) (drug : DrugProperties)
    (dose_mg frequency_hours : ℚ)
    (ht : 0 < drug.half_life_hours) (hv : 0 < drug.volume_of_distribution)
    (hd : 0 < dose_mg) (hb : 0 < drug.bioavailability)
    (hf : 0 < frequency_hours) :
    simulatePK patient drug dose_mg frequency_hours = some
      { cmax := dose_mg * drug.bioavailability / drug.volume_of_distribution *
          adjustmentFactor patient drug
        tmax := 3/2
        auc := dose_mg * drug.bioavailability /
          (dose_mg * drug.bioavailability /
            (drug.half_life_hours * adjustmentFactor patient drug))
        clearance := dose_mg * drug.bioavailability /
          (drug.half_life_hours * adjustmentFactor patient drug)
        half_life := drug.half_life_hours / adjustmentFactor patient drug
        steady_state_concentration := dose_mg * drug.bioavailability /
          (dose_mg * drug.bioavailability /
            (drug.half_life_hours * adjustmentFactor patient drug) *
            frequency_hours) } := by
  have hadj := adjustmentFactor_pos patient drug
  have hcl : 0 < dose_mg * drug.bioavailability /
      (drug.half_life_hours * adjustmentFactor patient drug) :=
    div_pos (mul_pos hd hb) (mul_pos ht hadj)
  unfold simulatePK
  rw [if_neg ht.ne', if_neg (mul_pos ht hadj).ne', if_neg hv.ne',
    if_neg hcl.ne', if_neg (mul_pos hcl hf).ne', if_neg hadj.ne']

/-- The patient of the end-to-end example: age 70, CYP2D6 Poor, BMI 32. -/
def patientC1 : Patient :=
  { patient_id := "P-001"
    age := 70
    cyp2d6_status := "Poor"
    cyp3a4_activity := "Normal"
    bmi := 32
    conditions := []
    previous_adverse_events := [] }

/-- A baseline patient triggering no covariate rule. -/
def patientBaseline : Patient :=
  { patient_id := "P-002"
    age := 50
    cyp2d6_status := "Normal"
    cyp3a4_activity := "Normal"
    bmi := 25
    conditions := []
    previous_adverse_events := [] }

/-- C1: the claimed PK adjustment for the example patient (age 70, CYP2D6
Poor, BMI 32, metformin) is 1.3 × 1 × 1.1 = 1.43; the code yields
0.8 × 1 × 1.1 = 0.88, so the claim is false at this input. -/
theorem adjustment_factor_age_counterexample :
    adjustmentFactor patientC1 metformin = 22/25 ∧ (22/25 : ℚ) ≠ 143/100 := by
  constructor
  · norm_num [adjustmentFactor, patientC1, metformin]; simp
  · norm_num

/-- C1 (amended): the age rule of `_calculate_adjustment_factor` multiplies
by 0.8 when age > 65 and by 0.9 when age < 18 (if/elif: never both, and no
separate bracket above 75); for the example patient (age 70, CYP2D6 Poor,
BMI 32, metformin) the factor is 0.8 × 1 × 1.1 = 0.88. -/
theorem adjustment_factor_age_rule :
    (∀ (patient : Patient) (drug : DrugProperties), 65 < patient.age →
      adjustmentFactor patient drug = 4/5 * adjustmentFactor (withAge patient 50) drug)
    ∧ (∀ (patient : Patient) (drug : DrugProperties), patient.age < 18 →
      adjustmentFactor patient drug = 9/10 * adjustmentFactor (withAge patient 50) drug)
    ∧ adjustmentFactor patientC1 metformin = 22/25 := by
  refine ⟨?_, ?_, by norm_num [adjustmentFactor, patientC1, metformin]; simp⟩
  · intro patient drug h
    rw [adjustmentFactor_eq_prod, adjustmentFactor_eq_prod]
    have h1 : ageTerm patient = 4/5 := by unfold ageTerm; rw [if_pos h]
    have h2 : ageTerm (withAge patient 50) = 1 := by norm_num [ageTerm, withAge]
    have h3 : cyp2d6Term (withAge patient 50) drug = cyp2d6Term patient drug := rfl
    have h4 : cyp3a4Term (withAge patient 50) drug = cyp3a4Term patient drug := rfl
    have h5 : bmiTerm (withAge patient 50) = bmiTerm patient := rfl
    rw [h1, h2, h3, h4, h5]; ring
  · intro patient drug h
    rw [adjustmentFactor_eq_prod, adjustmentFactor_eq_prod]
    have h0 : ¬ (65 : ℚ) < patient.age := by linarith
    have h1 : ageTerm patient = 9/10 := by
      unfold ageTerm; rw [if_neg h0, if_pos h]
    have h2 : ageTerm (withAge patient 50) = 1 := by norm_num [ageTerm, withAge]
    have h3 : cyp2d6Term (withAge patient 50) drug = cyp2d6Term patient drug := rfl
    have h4 : cyp3a4Term (withAge patient 50) drug = cyp3a4Term patient drug := rfl
    have h5 : bmiTerm (withAge patient 50) = bmiTerm patient := rfl
    rw [h1, h2, h3, h4, h5]; ring

/-- Witness for the amended C1 theorem at the concrete example patient. -/
theorem adjustment_factor_age_rule_witness :
    adjustmentFactor patientC1 metformin =
      4/5 * adjustmentFactor (withAge patientC1 50) metformin :=
  adjustment_factor_age_rule.1 patientC1 metformin (by norm_num [patientC1])

/-- C8: for positive half-life, volume of distribution, dose, bioavailability
(≤ 1) and frequency, the PK simulation hits no division by zero and returns
strictly positive Cmax, AUC, and steady-state concentration (all values are
exact rationals, hence finite). -/
theorem simulate_pk_valid_positive (patient : Patient) (drug : DrugProperties)
    (dose_mg frequency_hours : ℚ)
    (ht : 0 < drug.half_life_hours) (hv : 0 < drug.volume_of_distribution)
    (hd : 0 < dose_mg) (hb : 0 < drug.bioavailability)
    (hb1 : drug.bioavailability ≤ 1) (hf : 0 < frequency_hours) :
    ∃ pk : PKParameters,
      simulatePK patient drug dose_mg frequency_hours = some pk
      ∧ 0 < pk.cmax ∧ 0 < pk.auc ∧ 0 < pk.steady_state_concentration := by
  have hadj := adjustmentFactor_pos patient drug
  have hx : 0 < dose_mg * drug.bioavailability := mul_pos hd hb
  have hcl : 0 < dose_mg * drug.bioavailability /
      (drug.half_life_hours * adjustmentFactor patient drug) :=
    div_pos hx (mul_pos ht hadj)
  refine ⟨_, simulatePK_eq_some patient drug dose_mg frequency_hours ht hv hd hb hf,
    ?_, ?_, ?_⟩
  · exact mul_pos (div_pos hx hv) hadj
  · exact div_pos hx hcl
  · exact div_pos hx (mul_pos hcl hf)

/-- Witness for C8 at the baseline patient on metformin 500 mg every 24 h. -/
theorem simulate_pk_valid_positive_witness :
    ∃ pk : PKParameters,
      simulatePK patientBaseline metformin 500 24 = some pk
      ∧ 0 < pk.cmax ∧ 0 < pk.auc ∧ 0 < pk.steady_state_concentration :=
  simulate_pk_valid_positive patientBaseline metformin 500 24
    (by norm_num [metformin]) (by norm_num [metformin]) (by norm_num)
    (by norm_num [metformin]) (by norm_num [metformin]) (by norm_num)

/-- C2: doubling the dose does not double AUC or the steady-state
concentration — both are unchanged at 100 mg vs 200 mg of metformin for the
baseline patient (the dose cancels because `adjusted_cl` is itself
proportional to dose), so the linearity claim is false at this input. -/
theorem simulate_pk_dose_linearity_counterexample :
    (simulatePK patientBaseline metformin 100 24).map PKParameters.auc = some (31/5)
    ∧ (simulatePK patientBaseline metformin 200 24).map PKParameters.auc = some (31/5)
    ∧ (simulatePK patientBaseline metformin 100 24).map
        PKParameters.steady_state_concentration = some (31/120)
    ∧ (simulatePK patientBaseline metformin 200 24).map
        PKParameters.steady_state_concentration = some (31/120)
    ∧ ((31 : ℚ)/5 ≠ 2 * (31/5)) ∧ ((31 : ℚ)/120 ≠ 2 * (31/120)) := by
  have hadj : adjustmentFactor patientBaseline metformin = 1 := by
    norm_num [adjustmentFactor, patientBaseline, metformin]; simp
  have h1 := simulatePK_eq_some patientBaseline metformin 100 24
    (by norm_num [metformin]) (by norm_num [metformin]) (by norm_num)
    (by norm_num [metformin]) (by norm_num)
  have h2 := simulatePK_eq_some patientBaseline metformin 200 24
    (by norm_num [metformin]) (by norm_num [metformin]) (by norm_num)
    (by norm_num [metformin]) (by norm_num)
  rw [hadj] at h1 h2
  refine ⟨?_, ?_, ?_, ?_, by norm_num, by norm_num⟩
  · rw [h1]; simp only [Option.map_some']; norm_num [metformin]
  · rw [h2]; simp only [Option.map_some']; norm_num [metformin]
  · rw [h1]; simp only [Option.map_some']; norm_num [metformin]
  · rw [h2]; simp only [Option.map_some']; norm_num [metformin]

/-- C2 (amended): for valid inputs, doubling `dose_mg` with all else fixed
doubles Cmax but leaves AUC and the steady-state concentration unchanged
(the dose cancels against the dose-proportional adjusted clearance). -/
theorem simulate_pk_dose_scaling (patient : Patient) (drug : DrugProperties)
    (dose_mg frequency_hours : ℚ)
    (ht : 0 < drug.half_life_hours) (hv : 0 < drug.volume_of_distribution)
    (hd : 0 < dose_mg) (hb : 0 < drug.bioavailability)
    (hf : 0 < frequency_hours) :
    ∃ pk pk2 : PKParameters,
      simulatePK patient drug dose_mg frequency_hours = some pk
      ∧ simulatePK patient drug (2 * dose_mg) frequency_hours = some pk2
      ∧ pk2.cmax = 2 * pk.cmax ∧ pk2.auc = pk.auc
      ∧ pk2.steady_state_concentration = pk.steady_state_concentration := by
  have hadj := adjustmentFactor_pos patient drug
  have hd2 : 0 < 2 * dose_mg := by linarith
  have h0d : dose_mg ≠ 0 := hd.ne'
  have h0b : drug.bioavailability ≠ 0 := hb.ne'
  have h0t : drug.half_life_hours ≠ 0 := ht.ne'
  have h0a : adjustmentFactor patient drug ≠ 0 := hadj.ne'
  have h0f : frequency_hours ≠ 0 := hf.ne'
  refine ⟨_, _, simulatePK_eq_some patient drug dose_mg frequency_hours ht hv hd hb hf,
    simulatePK_eq_some patient drug (2 * dose_mg) frequency_hours ht hv hd2 hb hf,
    ?_, ?_, ?_⟩
  · dsimp only; ring
  · dsimp only; field_simp
  · dsimp only; field_simp; ring

/-- Witness for the amended C2 theorem: metformin 100 mg vs 200 mg for the
baseline patient. -/
theorem simulate_pk_dose_scaling_witness :
    ∃ pk pk2 : PKParameters,
      simulatePK patientBaseline metformin 100 24 = some pk
      ∧ simulatePK patientBaseline metformin (2 * 100) 24 = some pk2
      ∧ pk2.cmax = 2 * pk.cmax ∧ pk2.auc = pk.auc
      ∧ pk2.steady_state_concentration = pk.steady_state_concentration :=
  simulate_pk_dose_scaling patientBaseline metformin 100 24
    (by norm_num [metformin]) (by norm_num [metformin]) (by norm_num)
    (by norm_num [metformin]) (by norm_num)

/-- Adverse event severity grades (`AESeverity`, CTCAE). -/
inductive AESeverity where
  | MILD
  | MODERATE
  | SEVERE
  | LIFE_THREATENING
  | DEATH
deriving DecidableEq, Repr

/-- The integer value of an `AESeverity` grade (the Python enum value). -/
def severityNat : AESeverity → ℕ
  | .MILD => 1
  | .MODERATE => 2
  | .SEVERE => 3
  | .LIFE_THREATENING => 4
  | .DEATH => 5

/-- `AESeverity(n)`: decode an integer into a grade; `none` models the
`ValueError` Python raises on an undefined value. -/
def severityFromNat (n : ℕ) : Option AESeverity :=
  if n = 1 then some .MILD
  else if n = 2 then some .MODERATE
  else if n = 3 then some .SEVERE
  else if n = 4 then some .LIFE_THREATENING
  else if n = 5 then some .DEATH
  else none

/-- Categories of adverse events (`AECategory`). -/
inductive AECategory where
  | CARDIAC
  | GASTROINTESTINAL
  | HEPATIC
  | RENAL
  | NEUROLOGICAL
  | DERMATOLOGICAL
  | HEMATOLOGICAL
  | METABOLIC
  | MUSCULOSKELETAL
  | RESPIRATORY
  | OTHER
deriving DecidableEq, Repr

/-- Relationship of an adverse event to the study drug (`Causality`). -/
inductive Causality where
  | DEFINITE
  | PROBABLE
  | POSSIBLE
  | UNLIKELY
  | UNRELATED
deriving DecidableEq, Repr

/-- A predicted adverse event (`AdverseEvent`). The two Bool fields default
to `false` exactly as in the Python dataclass. -/
structure AdverseEvent where
  event_id : String
  patient_id : String
  event_name : String
  category : AECategory
  severity : AESeverity
  probability : ℚ
  onset_day : ℕ
  duration_days : ℕ
  causality : Causality
  risk_factors : List String
  mitigation_strategies : List String
  is_serious : Bool := false
  requires_discontinuation : Bool := false
deriving DecidableEq, Repr

/-- One entry of the known-adverse-event table
(`AdverseEventAgent._load_known_adverse_events`). The category and severity
are stored decoded: the table's string names and integer grades are all valid
for `AECategory[...]` and `AESeverity(...)`. -/
structure AEData where
  name : String
  category : AECategory
  incidence : ℚ
  severity : AESeverity
deriving DecidableEq, Repr

/-- Python `str.lower()`, modelled as a character-wise map (all strings the
agents compare are ASCII). -/
def lowerString (s : String) : String := String.mk (s.data.map Char.toLower)

/-- The known-adverse-event table, keyed by lowercase drug name
(`self.known_aes` with `.get(drug_name.lower(), [])`). -/
def knownAes (drug_name : String) : List AEData :=
  if lowerString drug_name = "metformin" then
    [⟨"Nausea", .GASTROINTESTINAL, 1/4, .MILD⟩,
     ⟨"Diarrhea", .GASTROINTESTINAL, 3/20, .MILD⟩,
     ⟨"Lactic acidosis", .METABOLIC, 1/1000, .LIFE_THREATENING⟩]
  else if lowerString drug_name = "atorvastatin" then
    [⟨"Myalgia", .MUSCULOSKELETAL, 1/20, .MILD⟩,
     ⟨"Elevated LFTs", .HEPATIC, 1/50, .MODERATE⟩,
     ⟨"Rhabdomyolysis", .MUSCULOSKELETAL, 1/10000, .LIFE_THREATENING⟩]
  else if lowerString drug_name = "lisinopril" then
    [⟨"Dry cough", .RESPIRATORY, 1/10, .MILD⟩,
     ⟨"Hyperkalemia", .METABOLIC, 3/100, .MODERATE⟩,
     ⟨"Angioedema", .OTHER, 1/1000, .LIFE_THREATENING⟩]
  else []

/-- Python `needle in hay` on lists of characters. -/
def hasSubstr (needle : List Char) : List Char → Bool
  | [] => needle.isEmpty
  | c :: rest => needle.isPrefixOf (c :: rest) || hasSubstr needle rest

/-- `any("hepat" in c.lower() or "liver" in c.lower() for c in conditions)`. -/
def hasHepaticCondition (conditions : List String) : Bool :=
  conditions.any fun c =>
    hasSubstr "hepat".toList (lowerString c).toList || hasSubstr "liver".toList (lowerString c).toList

/-- `AdverseEventAgent._calculate_risk_multiplier`, translated rule for rule
in source order; `drug_name` is accepted and unused exactly as in the
source. Note the source's `if age > 65 / elif age > 75` order. -/
def riskMultiplier (patient : Patient) (ae_data : AEData) (drug_name : String) : ℚ :=
  let _ := drug_name
  let multiplier : ℚ := 1
  let multiplier :=
    if 65 < patient.age then multiplier * (13/10)
    else if 75 < patient.age then multiplier * (3/2)
    else multiplier
  let multiplier :=
    if patient.cyp2d6_status = "Poor" then multiplier * (7/5)
    else multiplier
  let multiplier :=
    if "Chronic Kidney Disease" ∈ patient.conditions then multiplier * (3/2)
    else multiplier
  let multiplier :=
    if hasHepaticCondition patient.conditions then
      if ae_data.category = AECategory.HEPATIC then multiplier * 2
      else multiplier
    else multiplier
  let multiplier :=
    if ae_data.name ∈ patient.previous_adverse_events then multiplier * 3
    else multiplier
  multiplier

/-- `AdverseEventAgent._estimate_onset`. -/
def estimateOnset (ae_data : AEData) : ℕ :=
  if ae_data.category = AECategory.GASTROINTESTINAL then 3
  else if ae_data.category = AECategory.HEPATIC then 30
  else if ae_data.category = AECategory.DERMATOLOGICAL then 7
  else 14

/-- `AdverseEventAgent._estimate_duration`. -/
def estimateDuration (ae_data : AEData) : ℕ :=
  if severityNat ae_data.severity ≤ 2 then 7
  else if severityNat ae_data.severity = 3 then 21
  else 60

/-- `AdverseEventAgent._identify_risk_factors`. -/
def identifyRiskFactors (patient : Patient) (ae_data : AEData) : List String :=
  let _ := ae_data
  let factors :=
    (if 65 < patient.age then
      ["Advanced age (" ++ toString patient.age ++ " years)"] else [])
    ++ (if patient.cyp2d6_status = "Poor" then ["Poor CYP2D6 metabolizer"] else [])
    ++ (if patient.previous_adverse_events ≠ [] then
      ["History of adverse drug reactions"] else [])
  if factors = [] then ["No specific risk factors identified"] else factors

/-- `AdverseEventAgent._get_mitigation`. -/
def getMitigation (ae_data : AEData) : List String :=
  match ae_data.category with
  | .GASTROINTESTINAL => ["Take with food", "Start with low dose", "Consider antiemetics"]
  | .HEPATIC => ["Monitor LFTs regularly", "Avoid alcohol", "Review hepatotoxic meds"]
  | .MUSCULOSKELETAL => ["Monitor CK levels", "Report muscle pain", "Consider dose reduction"]
  | .METABOLIC => ["Regular metabolic panels", "Dietary counseling"]
  | .RESPIRATORY => ["Consider alternative agent if persistent", "Monitor symptoms"]
  | _ => ["Clinical monitoring"]

/-- The adjusted probability of a known adverse event:
`min(ae_data["incidence"] * risk_multiplier, 1.0)`. -/
def adjustedProb (patient : Patient) (ae_data : AEData) (drug_name : String) : ℚ :=
  min (ae_data.incidence * riskMultiplier patient ae_data drug_name) 1

/-- The event record built for a retained known adverse event inside
`predict_adverse_events`; `idx` is `len(events)` at construction time. -/
def mkRuleEvent (patient : Patient) (ae_data : AEData) (idx : ℕ)
    (adjusted_probability : ℚ) : AdverseEvent :=
  { event_id := "AE-" ++ patient.patient_id ++ "-" ++ toString (idx + 1)
    patient_id := patient.patient_id
    event_name := ae_data.name
    category := ae_data.category
    severity := ae_data.severity
    probability := adjusted_probability
    onset_day := estimateOnset ae_data
    duration_days := estimateDuration ae_data
    causality := Causality.PROBABLE
    risk_factors := identifyRiskFactors patient ae_data
    mitigation_strategies := getMitigation ae_data
    is_serious := 3 ≤ severityNat ae_data.severity
    requires_discontinuation := 4 ≤ severityNat ae_data.severity }

/-- The known-event loop of `AdverseEventAgent.predict_adverse_events`:
`events` accumulates retained events, and an event is appended only when its
adjusted probability is strictly above 0.01. -/
def predictRuleEventsAux (patient : Patient) (drug_name : String) :
    List AEData → List AdverseEvent → List AdverseEvent
  | [], events => events
  | ae_data :: rest, events =>
    if 1/100 < adjustedProb patient ae_data drug_name then
      predictRuleEventsAux patient drug_name rest
        (events ++ [mkRuleEvent patient ae_data events.length
          (adjustedProb patient ae_data drug_name)])
    else
      predictRuleEventsAux patient drug_name rest events

/-- The rule-based path of `predict_adverse_events`: known events for the
drug, risk-adjusted and filtered by the 1% floor. -/
def predictRuleEvents (patient : Patient) (drug_name : String) : List AdverseEvent :=
  predictRuleEventsAux patient drug_name (knownAes drug_name) []

/-- One decoded item of the JSON array inside the oracle's text response in
`_parse_gemini_aes`; `severity` is kept as the raw integer because the
source decodes it with `AESeverity(...)`, which can raise. -/
structure GeminiItem where
  name : String
  severity : ℕ
  probability : ℚ
  rationale : String
deriving DecidableEq, Repr

/-- The event record built in `_parse_gemini_aes` for item `i` (0-based).
`is_serious` and `requires_discontinuation` are not passed, so the dataclass
defaults (`false`) apply. -/
def mkGeminiEvent (patient_id : String) (item : GeminiItem) (sev : AESeverity)
    (i : ℕ) : AdverseEvent :=
  { event_id := "AE-" ++ patient_id ++ "-G" ++ toString (i + 1)
    patient_id := patient_id
    event_name := item.name
    category := AECategory.OTHER
    severity := sev
    probability := item.probability
    onset_day := 14
    duration_days := 7
    causality := Causality.POSSIBLE
    risk_factors := [item.rationale]
    mitigation_strategies := ["Clinical monitoring"] }

/-- The loop of `_parse_gemini_aes` over the decoded JSON array: an invalid
severity raises inside the `try`, so the events accumulated so far are
returned and the remaining items are dropped. -/
def parseGeminiAesAux (patient_id : String) : List GeminiItem → ℕ → List AdverseEvent
  | [], _ => []
  | item :: rest, i =>
    match severityFromNat item.severity with
    | none => []
    | some sev => mkGeminiEvent patient_id item sev i :: parseGeminiAesAux patient_id rest (i + 1)

/-- `AdverseEventAgent._parse_gemini_aes`, applied to the decoded JSON array
of the oracle response. No probability floor is applied on this path. -/
def parseGeminiAes (patient_id : String) (items : List GeminiItem) : List AdverseEvent :=
  parseGeminiAesAux patient_id items 0

/-- `AdverseEventAgent.predict_adverse_events`: rule-based events followed by
the oracle-sourced events (`none` models an oracle failure, which
`_gemini_risk_assessment` converts to an empty list). -/
def predictAdverseEvents (patient : Patient) (drug_name : String)
    (oracle_items : Option (List GeminiItem)) : List AdverseEvent :=
  predictRuleEvents patient drug_name ++
    match oracle_items with
    | none => []
    | some items => parseGeminiAes patient.patient_id items

/-- The age term of the risk multiplier, in isolation (source branch order
kept: `if age > 65` is tested before `elif age > 75`). -/
def ageRiskTerm (patient : Patient) : ℚ :=
  if 65 < patient.age then 13/10
  else if 75 < patient.age then 3/2
  else 1

/-- The CYP2D6 term of the risk multiplier, in isolation. -/
def cyp2d6RiskTerm (patient : Patient) : ℚ :=
  if patient.cyp2d6_status = "Poor" then 7/5 else 1

/-- The chronic-kidney-disease term of the risk multiplier, in isolation. -/
def ckdRiskTerm (patient : Patient) : ℚ :=
  if "Chronic Kidney Disease" ∈ patient.conditions then 3/2 else 1

/-- The hepatic term of the risk multiplier, in isolation. -/
def hepaticRiskTerm (patient : Patient) (ae_data : AEData) : ℚ :=
  if hasHepaticCondition patient.conditions then
    if ae_data.category = AECategory.HEPATIC then 2 else 1
  else 1

/-- The previous-event term of the risk multiplier, in isolation. -/
def previousRiskTerm (patient : Patient) (ae_data : AEData) : ℚ :=
  if ae_data.name ∈ patient.previous_adverse_events then 3 else 1

lemma riskMultiplier_eq_prod (patient : Patient) (ae_data : AEData)
    (drug_name : String) :
    riskMultiplier patient ae_data drug_name =
      ageRiskTerm patient * cyp2d6RiskTerm patient * ckdRiskTerm patient *
        hepaticRiskTerm patient ae_data * previousRiskTerm patient ae_data := by
  unfold riskMultiplier ageRiskTerm cyp2d6RiskTerm ckdRiskTerm hepaticRiskTerm
    previousRiskTerm
  split_ifs <;> ring

lemma one_le_mul_rat {a b : ℚ} (ha : 1 ≤ a) (hb : 1 ≤ b) : 1 ≤ a * b := by
  nlinarith

lemma one_le_ageRiskTerm (patient : Patient) : 1 ≤ ageRiskTerm patient := by
  unfold ageRiskTerm; split_ifs <;> norm_num

lemma one_le_cyp2d6RiskTerm (patient : Patient) : 1 ≤ cyp2d6RiskTerm patient := by
  unfold cyp2d6RiskTerm; split_ifs <;> norm_num

lemma one_le_ckdRiskTerm (patient : Patient) : 1 ≤ ckdRiskTerm patient := by
  unfold ckdRiskTerm; split_ifs <;> norm_num

lemma one_le_hepaticRiskTerm (patient : Patient) (ae_data : AEData) :
    1 ≤ hepaticRiskTerm patient ae_data := by
  unfold hepaticRiskTerm; split_ifs <;> norm_num

lemma one_le_previousRiskTerm (patient : Patient) (ae_data : AEData) :
    1 ≤ previousRiskTerm patient ae_data := by
  unfold previousRiskTerm; split_ifs <;> norm_num

/-- The events built from an already-filtered list of known adverse events,
numbering from `i`. -/
def mkRetained (patient : Patient) (drug_name : String) :
    List AEData → ℕ → List AdverseEvent
  | [], _ => []
  | ae_data :: rest, i =>
    mkRuleEvent patient ae_data i (adjustedProb patient ae_data drug_name) ::
      mkRetained patient drug_name rest (i + 1)

lemma predictRuleEventsAux_eq (patient : Patient) (drug_name : String) :
    ∀ (l : List AEData) (acc : List AdverseEvent),
      predictRuleEventsAux patient drug_name l acc =
        acc ++ mkRetained patient drug_name
          (l.filter fun a => decide ((1:ℚ)/100 < adjustedProb patient a drug_name))
          acc.length := by
  intro l
  induction l with
  | nil => intro acc; simp [predictRuleEventsAux, mkRetained]
  | cons a rest ih =>
    intro acc
    by_cases h : (1:ℚ)/100 < adjustedProb patient a drug_name
    · have hb : decide ((1:ℚ)/100 < adjustedProb patient a drug_name) = true :=
        decide_eq_true h
      rw [predictRuleEventsAux, if_pos h, ih, List.filter_cons, hb]
      simp [mkRetained, List.append_assoc]
    · have hb : decide ((1:ℚ)/100 < adjustedProb patient a drug_name) = false :=
        decide_eq_false h
      rw [predictRuleEventsAux, if_neg h, ih, List.filter_cons, hb]
      simp

lemma mkRetained_flags (patient : Patient) (drug_name : String) :
    ∀ (l : List AEData) (i : ℕ) (e : AdverseEvent),
      e ∈ mkRetained patient drug_name l i →
        e.is_serious = decide (3 ≤ severityNat e.severity)
        ∧ e.requires_discontinuation = decide (4 ≤ severityNat e.severity) := by
  intro l
  induction l with
  | nil => intro i e he; simp [mkRetained] at he
  | cons a rest ih =>
    intro i e he
    rw [mkRetained, List.mem_cons] at he
    rcases he with he | he
    · subst he; constructor <;> rfl
    · exact ih (i + 1) e he

lemma parseGeminiAesAux_flags (patient_id : String) :
    ∀ (items : List GeminiItem) (i : ℕ) (e : AdverseEvent),
      e ∈ parseGeminiAesAux patient_id items i →
        e.is_serious = false ∧ e.requires_discontinuation = false := by
  intro items
  induction items with
  | nil => intro i e he; simp [parseGeminiAesAux] at he
  | cons item rest ih =>
    intro i e he
    rw [parseGeminiAesAux] at he
    cases hs : severityFromNat item.severity with
    | none => rw [hs] at he; simp at he
    | some sev =>
      rw [hs, List.mem_cons] at he
      rcases he with he | he
      · subst he; constructor <;> rfl
      · exact ih (i + 1) e he

lemma parseGeminiAesAux_length (patient_id : String) :
    ∀ (items : List GeminiItem) (i : ℕ),
      (∀ it ∈ items, (severityFromNat it.severity).isSome = true) →
        (parseGeminiAesAux patient_id items i).length = items.length := by
  intro items
  induction items with
  | nil => intro i _; rfl
  | cons item rest ih =>
    intro i h
    have h1 := h item (by simp)
    cases hs : severityFromNat item.severity with
    | none => rw [hs] at h1; simp at h1
    | some sev =>
      rw [parseGeminiAesAux, hs]
      simp only [List.length_cons]
      rw [ih (i + 1) (fun x hx => h x (by simp [hx]))]

/-- The Nausea entry of the metformin known-adverse-event table. -/
def aeNausea : AEData := ⟨"Nausea", .GASTROINTESTINAL, 1/4, .MILD⟩

/-- A patient of age 80 triggering no other risk rule. -/
def patient80 : Patient :=
  { patient_id := "P-003"
    age := 80
    cyp2d6_status := "Normal"
    cyp3a4_activity := "Normal"
    bmi := 25
    conditions := []
    previous_adverse_events := [] }

/-- C7: evaluating `_calculate_risk_multiplier` at a patient of age 80 with
no other risk factor yields 1.3, not the claimed 1.5: the source tests
`if age > 65` before `elif age > 75`, so the ×1.5 branch is unreachable. -/
theorem risk_multiplier_age80_evaluation :
    riskMultiplier patient80 aeNausea "metformin" = 13/10
    ∧ ((13 : ℚ)/10 ≠ 3/2) := by
  constructor
  · norm_num [riskMultiplier, patient80, aeNausea, hasHepaticCondition]; simp
  · norm_num

/-- C10: the risk multiplier starts at 1.0 and every rule multiplies by a
factor ≥ 1, so it is at least 1.0; hence the pre-cap adjusted probability
`incidence * multiplier` is never below the base incidence. -/
theorem risk_multiplier_ge_one (patient : Patient) (ae_data : AEData)
    (drug_name : String) (hinc : 0 ≤ ae_data.incidence) :
    1 ≤ riskMultiplier patient ae_data drug_name
    ∧ ae_data.incidence ≤ ae_data.incidence * riskMultiplier patient ae_data drug_name := by
  have h1 : 1 ≤ riskMultiplier patient ae_data drug_name := by
    rw [riskMultiplier_eq_prod]
    exact one_le_mul_rat (one_le_mul_rat (one_le_mul_rat (one_le_mul_rat
      (one_le_ageRiskTerm patient) (one_le_cyp2d6RiskTerm patient))
      (one_le_ckdRiskTerm patient)) (one_le_hepaticRiskTerm patient ae_data))
      (one_le_previousRiskTerm patient ae_data)
  exact ⟨h1, le_mul_of_one_le_right hinc h1⟩

/-- Witness for C10 at the example patient and the metformin Nausea entry. -/
theorem risk_multiplier_ge_one_witness :
    1 ≤ riskMultiplier patientC1 aeNausea "metformin"
    ∧ aeNausea.incidence ≤ aeNausea.incidence * riskMultiplier patientC1 aeNausea "metformin" :=
  risk_multiplier_ge_one patientC1 aeNausea "metformin" (by norm_num [aeNausea])

/-- C6: the rule-based path retains exactly the known events whose adjusted
probability is strictly above 0.01 (list-level characterization as a filter
by the strict comparison); an adjusted probability of exactly 0.01 is
dropped while 0.0101 is kept; the oracle-sourced path applies no floor
(every well-formed item yields an event). -/
theorem ae_probability_floor :
    (∀ (patient : Patient) (drug_name : String),
      predictRuleEvents patient drug_name =
        mkRetained patient drug_name
          ((knownAes drug_name).filter
            fun a => decide ((1:ℚ)/100 < adjustedProb patient a drug_name)) 0)
    ∧ predictRuleEventsAux patientBaseline "drugx"
        [⟨"Boundary event", .OTHER, 1/100, .MILD⟩] [] = []
    ∧ (predictRuleEventsAux patientBaseline "drugx"
        [⟨"Boundary event", .OTHER, 101/10000, .MILD⟩] []).map
          (fun e => e.probability) = [101/10000]
    ∧ ∀ (patient_id : String) (items : List GeminiItem),
        (∀ it ∈ items, (severityFromNat it.severity).isSome = true) →
          (parseGeminiAes patient_id items).length = items.length := by
  refine ⟨?_, ?_, ?_, ?_⟩
  · intro patient drug_name
    have h := predictRuleEventsAux_eq patient drug_name (knownAes drug_name) []
    simpa [predictRuleEvents] using h
  · have hmul : riskMultiplier patientBaseline
        ⟨"Boundary event", .OTHER, 1/100, .MILD⟩ "drugx" = 1 := by
      norm_num [riskMultiplier, patientBaseline, hasHepaticCondition]; simp
    have hadj : adjustedProb patientBaseline
        ⟨"Boundary event", .OTHER, 1/100, .MILD⟩ "drugx" = 1/100 := by
      rw [adjustedProb, hmul]; norm_num
    rw [predictRuleEventsAux, if_neg (by rw [hadj]; exact lt_irrefl _), predictRuleEventsAux]
  · have hmul : riskMultiplier patientBaseline
        ⟨"Boundary event", .OTHER, 101/10000, .MILD⟩ "drugx" = 1 := by
      norm_num [riskMultiplier, patientBaseline, hasHepaticCondition]; simp
    have hadj : adjustedProb patientBaseline
        ⟨"Boundary event", .OTHER, 101/10000, .MILD⟩ "drugx" = 101/10000 := by
      rw [adjustedProb, hmul]; norm_num
    rw [predictRuleEventsAux, if_pos (by rw [hadj]; norm_num), predictRuleEventsAux]
    simp [mkRuleEvent, hadj]
  · intro patient_id items h
    exact parseGeminiAesAux_length patient_id items 0 h

/-- Witness for C6 at a concrete oracle item below the 1% floor. -/
theorem ae_probability_floor_witness :
    (parseGeminiAes "P-012" [⟨"Headache", 1, 1/1000, "reported"⟩]).length = 1 := by
  have h := ae_probability_floor.2.2.2 "P-012" [⟨"Headache", 1, 1/1000, "reported"⟩]
    (by intro it hit; rw [List.mem_singleton] at hit; subst hit; rfl)
  simpa using h

/-- C5: an oracle-sourced event of severity 4 is produced with
`is_serious = false` and `requires_discontinuation = false` (the dataclass
defaults), violating the claimed derivation `is_serious = (severity ≥ 3)`,
`requires_discontinuation = (severity ≥ 4)`. -/
theorem seriousness_oracle_counterexample :
    (parseGeminiAes "P-010" [⟨"Hepatotoxicity", 4, 1/20, "transaminitis"⟩]).map
      (fun e => (severityNat e.severity, e.is_serious, e.requires_discontinuation))
      = [(4, false, false)] := rfl

/-- C5 (amended): events from the rule-based path satisfy the derivation
`is_serious = (severity ≥ 3)` and `requires_discontinuation = (severity ≥ 4)`;
events from the oracle-sourced path always carry `is_serious = false` and
`requires_discontinuation = false`, whatever their severity. -/
theorem seriousness_derivation :
    (∀ (patient : Patient) (drug_name : String) (e : AdverseEvent),
      e ∈ predictRuleEvents patient drug_name →
        e.is_serious = decide (3 ≤ severityNat e.severity)
        ∧ e.requires_discontinuation = decide (4 ≤ severityNat e.severity))
    ∧ (∀ (patient_id : String) (items : List GeminiItem) (e : AdverseEvent),
      e ∈ parseGeminiAes patient_id items →
        e.is_serious = false ∧ e.requires_discontinuation = false) := by
  constructor
  · intro patient drug_name e he
    rw [predictRuleEvents, predictRuleEventsAux_eq patient drug_name] at he
    simp only [List.nil_append, List.length_nil] at he
    exact mkRetained_flags patient drug_name _ 0 e he
  · intro patient_id items e he
    exact parseGeminiAesAux_flags patient_id items 0 e he

/-- Witness for the amended C5 theorem at a concrete oracle item. -/
theorem seriousness_derivation_witness :
    (mkGeminiEvent "P-011" ⟨"Dizziness", 2, 1/20, "reported"⟩
      AESeverity.MODERATE 0).is_serious = false
    ∧ (mkGeminiEvent "P-011" ⟨"Dizziness", 2, 1/20, "reported"⟩
      AESeverity.MODERATE 0).requires_discontinuation = false :=
  seriousness_derivation.2 "P-011" [⟨"Dizziness", 2, 1/20, "reported"⟩] _
    (by rw [parseGeminiAes, parseGeminiAesAux]; exact List.mem_cons_self _ _)

/-- Return string of `_assess_overall_safety` for an empty event list. -/
def noEventsAssessment : String :=
  "No adverse events observed. Safety profile appears favorable."

/-- Return string of the favorable tier. -/
def favorableAssessment : String :=
  "Favorable safety profile with mild adverse events only."

/-- Return string of the acceptable tier. -/
def acceptableAssessment : String :=
  "Generally acceptable safety with rare serious events requiring monitoring."

/-- Return string of the concerns tier. -/
def concernsAssessment : String :=
  "Safety concerns identified. Close monitoring and possible protocol amendment recommended."

/-- `sum(1 for e in events if e.is_serious)`. -/
def seriousCount (events : List AdverseEvent) : ℕ :=
  (events.filter fun e => e.is_serious).length

/-- `AdverseEventAgent._assess_overall_safety`, with the source's local
variables `serious` and `ae_rate` inlined. -/
def assessOverallSafety (events : List AdverseEvent) (n_patients : ℕ) : String :=
  if events = [] then noEventsAssessment
  else if seriousCount events = 0
      ∧ (events.length : ℚ) / ((max n_patients 1 : ℕ) : ℚ) < 1/5 then
    favorableAssessment
  else if 0 < seriousCount events
      ∧ (seriousCount events : ℚ) / ((max n_patients 1 : ℕ) : ℚ) < 1/20 then
    acceptableAssessment
  else
    concernsAssessment

/-- The three-tier assessment as the claim words it: favorable when zero
serious events and AE rate < 0.2; acceptable when the serious-event rate is
< 0.05; otherwise concerns. (Stated from the claim, for comparison with the
source function.) -/
def claimedSafetyAssessment (events : List AdverseEvent) (n_patients : ℕ) : String :=
  if seriousCount events = 0
      ∧ (events.length : ℚ) / ((max n_patients 1 : ℕ) : ℚ) < 1/5 then
    favorableAssessment
  else if (seriousCount events : ℚ) / ((max n_patients 1 : ℕ) : ℚ) < 1/20 then
    acceptableAssessment
  else
    concernsAssessment

/-- A non-serious (severity 1) adverse event. -/
def mildEventC4 : AdverseEvent :=
  { event_id := "AE-C4-1"
    patient_id := "P-004"
    event_name := "Nausea"
    category := .GASTROINTESTINAL
    severity := .MILD
    probability := 1/4
    onset_day := 3
    duration_days := 7
    causality := .PROBABLE
    risk_factors := ["No specific risk factors identified"]
    mitigation_strategies := ["Clinical monitoring"] }

/-- A serious (severity 4) adverse event. -/
def seriousEventC4 : AdverseEvent :=
  { mildEventC4 with
    event_id := "AE-C4-2"
    event_name := "Lactic acidosis"
    category := .METABOLIC
    severity := .LIFE_THREATENING
    is_serious := true
    requires_discontinuation := true }

lemma seriousCount_replicate_false (e : AdverseEvent) (h : e.is_serious = false) :
    ∀ k : ℕ, seriousCount (List.replicate k e) = 0 := by
  intro k
  induction k with
  | zero => rfl
  | succ k ih =>
    have hstep : seriousCount (e :: List.replicate k e) =
        seriousCount (List.replicate k e) := by
      simp [seriousCount, List.filter_cons, h]
    rw [List.replicate_succ, hstep, ih]

lemma seriousCount_replicate_true (e : AdverseEvent) (h : e.is_serious = true) :
    ∀ k : ℕ, seriousCount (List.replicate k e) = k := by
  intro k
  induction k with
  | zero => rfl
  | succ k ih =>
    have hstep : seriousCount (e :: List.replicate k e) =
        seriousCount (List.replicate k e) + 1 := by
      simp [seriousCount, List.filter_cons, h]
    rw [List.replicate_succ, hstep, ih]

lemma replicate_ne_nil (e : AdverseEvent) (k : ℕ) (hk : 0 < k) :
    List.replicate k e ≠ [] := by
  intro h
  have := List.length_replicate k e
  rw [h] at this
  simp at this
  omega

/-- C4: at 100 patients and 25 non-serious events the source returns the
concerns tier, while the claimed three-tier function (serious-event rate
0 < 0.05) returns the acceptable tier, so the claim is false at this
input. -/
theorem safety_assessment_counterexample :
    assessOverallSafety (List.replicate 25 mildEventC4) 100 = concernsAssessment
    ∧ claimedSafetyAssessment (List.replicate 25 mildEventC4) 100 = acceptableAssessment
    ∧ concernsAssessment ≠ acceptableAssessment := by
  have hsc : seriousCount (List.replicate 25 mildEventC4) = 0 :=
    seriousCount_replicate_false mildEventC4 rfl 25
  have hlen : (List.replicate 25 mildEventC4).length = 25 := List.length_replicate 25 _
  have hmax : (max 100 1 : ℕ) = 100 := rfl
  refine ⟨?_, ?_, by decide⟩
  · rw [assessOverallSafety,
      if_neg (replicate_ne_nil mildEventC4 25 (by norm_num)),
      if_neg (by rw [hsc, hlen, hmax]; norm_num),
      if_neg (by rw [hsc]; norm_num)]
  · rw [claimedSafetyAssessment,
      if_neg (by rw [hsc, hlen, hmax]; norm_num),
      if_pos (by rw [hsc, hmax]; norm_num)]

/-- C4 (amended): for a non-empty event list the assessment is favorable iff
zero serious events and AE rate < 0.2, acceptable iff not favorable and at
least one serious event with serious-event rate < 0.05, and concerns
otherwise; the claim's three boundary examples all hold (the empty list
returns a separate no-events message). -/
theorem safety_assessment_tiers :
    (∀ (events : List AdverseEvent) (n_patients : ℕ), events ≠ [] →
      ((assessOverallSafety events n_patients = favorableAssessment) ↔
        (seriousCount events = 0
          ∧ (events.length : ℚ) / ((max n_patients 1 : ℕ) : ℚ) < 1/5))
      ∧ ((assessOverallSafety events n_patients = acceptableAssessment) ↔
        (¬(seriousCount events = 0
            ∧ (events.length : ℚ) / ((max n_patients 1 : ℕ) : ℚ) < 1/5)
          ∧ (0 < seriousCount events
            ∧ (seriousCount events : ℚ) / ((max n_patients 1 : ℕ) : ℚ) < 1/20)))
      ∧ ((assessOverallSafety events n_patients = concernsAssessment) ↔
        (¬(seriousCount events = 0
            ∧ (events.length : ℚ) / ((max n_patients 1 : ℕ) : ℚ) < 1/5)
          ∧ ¬(0 < seriousCount events
            ∧ (seriousCount events : ℚ) / ((max n_patients 1 : ℕ) : ℚ) < 1/20))))
    ∧ assessOverallSafety (List.replicate 19 mildEventC4) 100 = favorableAssessment
    ∧ assessOverallSafety (List.replicate 4 seriousEventC4) 100 = acceptableAssessment
    ∧ assessOverallSafety (List.replicate 6 seriousEventC4) 100 = concernsAssessment := by
  have hmax : (max 100 1 : ℕ) = 100 := rfl
  refine ⟨?_, ?_, ?_, ?_⟩
  · intro events n_patients hne
    rw [assessOverallSafety, if_neg hne]
    split_ifs with h1 h2
    · exact ⟨⟨fun _ => h1, fun _ => rfl⟩,
        ⟨fun hEq => absurd hEq (by decide), fun hc => (hc.1 h1).elim⟩,
        ⟨fun hEq => absurd hEq (by decide), fun hc => (hc.1 h1).elim⟩⟩
    · exact ⟨⟨fun hEq => absurd hEq (by decide), fun hc => (h1 hc).elim⟩,
        ⟨fun _ => ⟨h1, h2⟩, fun _ => rfl⟩,
        ⟨fun hEq => absurd hEq (by decide), fun hc => (hc.2 h2).elim⟩⟩
    · exact ⟨⟨fun hEq => absurd hEq (by decide), fun hc => (h1 hc).elim⟩,
        ⟨fun hEq => absurd hEq (by decide), fun hc => (h2 hc.2).elim⟩,
        ⟨fun _ => ⟨h1, h2⟩, fun _ => rfl⟩⟩
  · have hsc : seriousCount (List.replicate 19 mildEventC4) = 0 :=
      seriousCount_replicate_false mildEventC4 rfl 19
    have hlen : (List.replicate 19 mildEventC4).length = 19 := List.length_replicate 19 _
    rw [assessOverallSafety,
      if_neg (replicate_ne_nil mildEventC4 19 (by norm_num)),
      if_pos (by rw [hsc, hlen, hmax]; norm_num)]
  · have hsc : seriousCount (List.replicate 4 seriousEventC4) = 4 :=
      seriousCount_replicate_true seriousEventC4 rfl 4
    have hlen : (List.replicate 4 seriousEventC4).length = 4 := List.length_replicate 4 _
    rw [assessOverallSafety,
      if_neg (replicate_ne_nil seriousEventC4 4 (by norm_num)),
      if_neg (by rw [hsc]; norm_num),
      if_pos (by rw [hsc, hmax]; norm_num)]
  · have hsc : seriousCount (List.replicate 6 seriousEventC4) = 6 :=
      seriousCount_replicate_true seriousEventC4 rfl 6
    have hlen : (List.replicate 6 seriousEventC4).length = 6 := List.length_replicate 6 _
    rw [assessOverallSafety,
      if_neg (replicate_ne_nil seriousEventC4 6 (by norm_num)),
      if_neg (by rw [hsc]; norm_num),
      if_neg (by rw [hsc, hmax]; norm_num)]

/-- Witness for the amended C4 theorem at 19 non-serious events and 100
patients. -/
theorem safety_assessment_tiers_witness :
    (assessOverallSafety (List.replicate 19 mildEventC4) 100 = favorableAssessment) ↔
      (seriousCount (List.replicate 19 mildEventC4) = 0
        ∧ ((List.replicate 19 mildEventC4).length : ℚ) / ((max 100 1 : ℕ) : ℚ) < 1/5) :=
  (safety_assessment_tiers.1 (List.replicate 19 mildEventC4) 100
    (replicate_ne_nil mildEventC4 19 (by norm_num))).1

/-- `_check_pair_interaction`'s cache key:
`f"{drug_a.lower()}_{drug_b.lower()}"`. -/
def interactionCacheKey (drug_a drug_b : String) : String :=
  lowerString drug_a ++ "_" ++ lowerString drug_b

/-- The parsed fields of a successful oracle interaction analysis. -/
structure InteractionData where
  severity : InteractionSeverity
  mechanism : String
  clinical_effect : String
  recommendation : String
  evidence_level : String
deriving DecidableEq, Repr

/-- `DrugInteractionAgent._check_pair_interaction`: the interaction cache is
an association list keyed by `interactionCacheKey`; on a miss the oracle is
consulted (`none` models transport, parse-to-exception, or severity-decode
failure, for which the source returns `None` without caching), and a
successful response is cached under the key of this orientation. -/
def checkPairInteraction
    (oracle : String → String → Patient → Option InteractionData)
    (cache : List (String × DrugInteraction))
    (drug_a drug_b : String) (patient : Patient) :
    Option DrugInteraction × List (String × DrugInteraction) :=
  let cache_key := interactionCacheKey drug_a drug_b
  match cache.find? (fun kv => kv.1 == cache_key) with
  | some kv => (some kv.2, cache)
  | none =>
    match oracle drug_a drug_b patient with
    | none => (none, cache)
    | some data =>
      let interaction : DrugInteraction :=
        { drug_a := drug_a
          drug_b := drug_b
          severity := data.severity
          mechanism := data.mechanism
          clinical_effect := data.clinical_effect
          recommendation := data.recommendation
          evidence_level := data.evidence_level }
      (some interaction, (cache_key, interaction) :: cache)

/-- An oracle whose answer depends on the orientation of the pair. -/
def divergentOracle : String → String → Patient → Option InteractionData :=
  fun drug_a _ _ =>
    if drug_a = "metformin" then
      some ⟨InteractionSeverity.MAJOR, "mech", "effect", "monitor", "High"⟩
    else
      some ⟨InteractionSeverity.MINOR, "mech", "effect", "monitor", "High"⟩

/-- C3: the cache key is not order-independent —
`key("metformin","lisinopril") ≠ key("lisinopril","metformin")` — and
resolving the pair in one order then in the other misses the cache and can
return a different severity, so the claim is false at this input. -/
theorem interaction_cache_key_counterexample :
    interactionCacheKey "metformin" "lisinopril"
      ≠ interactionCacheKey "lisinopril" "metformin"
    ∧ ((checkPairInteraction divergentOracle [] "metformin" "lisinopril"
        patientBaseline).1.map DrugInteraction.severity
        = some InteractionSeverity.MAJOR)
    ∧ ((checkPairInteraction divergentOracle
        (checkPairInteraction divergentOracle [] "metformin" "lisinopril"
          patientBaseline).2
        "lisinopril" "metformin" patientBaseline).1.map DrugInteraction.severity
        = some InteractionSeverity.MINOR)
    ∧ InteractionSeverity.MAJOR ≠ InteractionSeverity.MINOR := by
  exact ⟨by decide, rfl, rfl, by decide⟩

/-- C3 (amended): the cache key is order-dependent
(`lower(a) + "_" + lower(b)`); it coincides for the two orderings when the
lowercased names coincide, but differs for distinct drugs such as metformin
and lisinopril, so the two orderings of a pair are resolved and cached
under separate entries. -/
theorem interaction_cache_key_lower_eq (drug_a drug_b : String)
    (h : lowerString drug_a = lowerString drug_b) :
    interactionCacheKey drug_a drug_b = interactionCacheKey drug_b drug_a := by
  rw [interactionCacheKey, interactionCacheKey, h]

/-- Witness for the amended C3 theorem: the same drug in different letter
case yields the same key in both orders. -/
theorem interaction_cache_key_lower_eq_witness :
    interactionCacheKey "Metformin" "metformin"
      = interactionCacheKey "metformin" "Metformin" :=
  interaction_cache_key_lower_eq "Metformin" "metformin" (by decide)

/-- Python `min(l, key=lambda x: abs(x - dose))` starting from a first
candidate: the accumulator is replaced only on a strictly smaller key, so
the first element attaining the minimum wins. -/
def minByAbsDist (dose : ℚ) : List ℚ → ℚ → ℚ
  | [], best => best
  | x :: xs, best =>
    minByAbsDist dose xs (if |x - dose| < |best - dose| then x else best)

/-- `common_doses` of `DrugInteractionAgent._round_to_practical_dose`. -/
def commonDoses : List ℚ := [5, 10, 15, 20, 25, 40, 50, 75, 100, 150, 200, 250, 500]

/-- `DrugInteractionAgent._round_to_practical_dose`. The empty-list branch is
unreachable (`commonDoses` is the fixed non-empty table; Python `min` would
raise there). -/
def roundToPracticalDose (dose : ℚ) : ℚ :=
  match commonDoses with
  | [] => 0
  | d :: ds => minByAbsDist dose ds d

lemma minByAbsDist_mem (dose : ℚ) :
    ∀ (l : List ℚ) (b : ℚ), minByAbsDist dose l b = b ∨ minByAbsDist dose l b ∈ l := by
  intro l
  induction l with
  | nil => intro b; left; rfl
  | cons x xs ih =>
    intro b
    rw [minByAbsDist]
    rcases ih (if |x - dose| < |b - dose| then x else b) with h | h
    · rw [h]
      split_ifs
      · right; exact List.mem_cons_self _ _
      · left; rfl
    · right; exact List.mem_cons_of_mem _ h

lemma minByAbsDist_le (dose : ℚ) :
    ∀ (l : List ℚ) (b : ℚ),
      |minByAbsDist dose l b - dose| ≤ |b - dose|
      ∧ ∀ x ∈ l, |minByAbsDist dose l b - dose| ≤ |x - dose| := by
  intro l
  induction l with
  | nil =>
    intro b
    exact ⟨le_refl _, fun x hx => absurd hx (List.not_mem_nil x)⟩
  | cons x xs ih =>
    intro b
    rw [minByAbsDist]
    obtain ⟨h1, h2⟩ := ih (if |x - dose| < |b - dose| then x else b)
    constructor
    · refine le_trans h1 ?_
      split_ifs with hc
      · exact le_of_lt hc
      · exact le_refl _
    · intro y hy
      rcases List.mem_cons.mp hy with hyx | hy2
      · subst hyx
        by_cases hc : |y - dose| < |b - dose|
        · rw [if_pos hc] at h1 ⊢; exact h1
        · rw [if_neg hc] at h1 ⊢; exact le_trans h1 (not_lt.mp hc)
      · exact h2 y hy2

lemma minByAbsDist_eq_or_lt (dose : ℚ) :
    ∀ (l : List ℚ) (b : ℚ),
      minByAbsDist dose l b = b ∨ |minByAbsDist dose l b - dose| < |b - dose| := by
  intro l
  induction l with
  | nil => intro b; left; rfl
  | cons x xs ih =>
    intro b
    rw [minByAbsDist]
    by_cases hc : |x - dose| < |b - dose|
    · rw [if_pos hc]
      right
      rcases ih x with h | h
      · rw [h]; exact hc
      · exact lt_trans h hc
    · rw [if_neg hc]
      exact ih b

lemma minByAbsDist_tie (dose : ℚ) :
    ∀ (l : List ℚ) (b : ℚ), List.Sorted (· ≤ ·) (b :: l) →
      ∀ x ∈ b :: l, |x - dose| = |minByAbsDist dose l b - dose| →
        minByAbsDist dose l b ≤ x := by
  intro l
  induction l with
  | nil =>
    intro b _ x hx _
    rw [List.mem_singleton] at hx
    subst hx
    exact le_refl _
  | cons x xs ih =>
    intro b hs y hy hEq
    obtain ⟨hs1, hs2⟩ := List.sorted_cons.mp hs
    obtain ⟨hx1, hs3⟩ := List.sorted_cons.mp hs2
    rw [minByAbsDist] at hEq ⊢
    by_cases hc : |x - dose| < |b - dose|
    · rw [if_pos hc] at hEq ⊢
      rcases List.mem_cons.mp hy with hyb | hy2
      · subst hyb
        exfalso
        have hlt : |minByAbsDist dose xs x - dose| < |y - dose| :=
          lt_of_le_of_lt (minByAbsDist_le dose xs x).1 hc
        rw [hEq] at hlt
        exact lt_irrefl _ hlt
      · exact ih x hs2 y hy2 hEq
    · rw [if_neg hc] at hEq ⊢
      have hsb : List.Sorted (· ≤ ·) (b :: xs) :=
        List.sorted_cons.mpr
          ⟨fun z hz => hs1 z (List.mem_cons_of_mem _ hz), hs3⟩
      rcases List.mem_cons.mp hy with hyb | hy2
      · subst hyb
        exact ih y hsb y (List.mem_cons_self _ _) hEq
      · rcases List.mem_cons.mp hy2 with hyx | hy3
        · subst hyx
          rcases minByAbsDist_eq_or_lt dose xs b with h | h
          · rw [h]; exact hs1 y (List.mem_cons_self _ _)
          · exfalso
            have hlt : |minByAbsDist dose xs b - dose| < |y - dose| :=
              lt_of_lt_of_le h (not_lt.mp hc)
            rw [hEq] at hlt
            exact lt_irrefl _ hlt
        · exact ih b hsb y (List.mem_cons_of_mem _ hy3) hEq

/-- C9: for every dose, `_round_to_practical_dose` returns a member of the
practical-strength table at minimal absolute distance, with exact ties
resolved to the first-encountered (lowest) candidate; in particular 23 ↦ 25
and 12 ↦ 10 (the 10/15 tie resolves to 10). -/
theorem round_to_practical_dose_correct :
    (∀ dose : ℚ,
      roundToPracticalDose dose ∈ commonDoses
      ∧ (∀ x ∈ commonDoses, |roundToPracticalDose dose - dose| ≤ |x - dose|)
      ∧ (∀ x ∈ commonDoses, |x - dose| = |roundToPracticalDose dose - dose| →
          roundToPracticalDose dose ≤ x))
    ∧ roundToPracticalDose 23 = 25 ∧ roundToPracticalDose 12 = 10 := by
  have hsorted : List.Sorted (· ≤ ·) commonDoses := by
    norm_num [commonDoses, List.sorted_cons]
  refine ⟨?_, ?_, ?_⟩
  · intro dose
    have hdef : roundToPracticalDose dose =
        minByAbsDist dose [10, 15, 20, 25, 40, 50, 75, 100, 150, 200, 250, 500] 5 := rfl
    refine ⟨?_, ?_, ?_⟩
    · rw [hdef, commonDoses]
      rcases minByAbsDist_mem dose [10, 15, 20, 25, 40, 50, 75, 100, 150, 200, 250, 500] 5
        with h | h
      · rw [h]; exact List.mem_cons_self _ _
      · exact List.mem_cons_of_mem _ h
    · intro x hx
      rw [commonDoses] at hx
      rw [hdef]
      rcases List.mem_cons.mp hx with rfl | hx2
      · exact (minByAbsDist_le dose _ 5).1
      · exact (minByAbsDist_le dose _ 5).2 x hx2
    · intro x hx hEq
      rw [commonDoses] at hx
      rw [hdef] at hEq ⊢
      exact minByAbsDist_tie dose _ 5 (by rw [commonDoses] at hsorted; exact hsorted)
        x hx hEq
  · show minByAbsDist 23 [10, 15, 20, 25, 40, 50, 75, 100, 150, 200, 250, 500] 5 = 25
    norm_num [minByAbsDist]
  · show minByAbsDist 12 [10, 15, 20, 25, 40, 50, 75, 100, 150, 200, 250, 500] 5 = 10
    norm_num [minByAbsDist]

/-- Witness for C9: the minimal-distance property instantiated at dose 23
and candidate 20. -/
theorem round_to_practical_dose_correct_witness :
    |roundToPracticalDose 23 - 23| ≤ |(20 : ℚ) - 23| :=
  (round_to_practical_dose_correct.1 23).2.1 20 (by norm_num [commonDoses])

end ClinSim
